import Mathlib

/-!
# Verification of the cross-validation training pipeline

Shallow embedding of the repository `field_classification`
(`create_models_with_cross_validation.py`, `data_and_visualization_io.py`,
`validation.py`), followed by theorems settling the frozen claims about it.

Conventions:
* Python `dict` objects keyed by fold index become association lists
  (`List (Nat × α)`) with Python's assignment semantics (`dictInsert`):
  overwrite in place when the key is present, append otherwise.
* Python `float` values become `ℚ` (the claims never depend on rounding).
* Fallible Python code (index errors, wrong-arity calls, missing
  attributes) becomes `Option`/`Except`.
* External collaborators (sklearn's `roc_curve` / `roc_auc_score`) are
  modelled from the spec's description of them, since they are not part of
  this repository.
-/

set_option autoImplicit false

namespace FieldClassification

/-! ## Python dictionary model -/

/-- Python `d[k] = v` on a dict: overwrite the entry in place when the key
is present (a dict holds at most one entry per key), otherwise append a
new entry (Python dicts keep insertion order). -/
def dictInsert {α : Type} : List (Nat × α) → Nat → α → List (Nat × α)
  | [], k, v => [(k, v)]
  | p :: rest, k, v =>
    if p.1 == k then (k, v) :: rest else p :: dictInsert rest k v

/-- Python `d[k]` lookup (as an `Option`). -/
def dictLookup {α : Type} : List (Nat × α) → Nat → Option α
  | [], _ => none
  | p :: rest, k => if p.1 == k then some p.2 else dictLookup rest k

/-- Python `k in d`. -/
def dictHasKey {α : Type} : List (Nat × α) → Nat → Bool
  | [], _ => false
  | p :: rest, k => p.1 == k || dictHasKey rest k

/-! ## Training-history record

Embeds the Keras `History` object consumed by the repository: the four
per-epoch series accessed as `history.history['loss']`,
`history.history['acc']`, `history.history['val_loss']`,
`history.history['val_acc']`. -/

structure History where
  loss : List ℚ
  acc : List ℚ
  val_loss : List ℚ
  val_acc : List ℚ
  deriving DecidableEq

/-! ## CLI argument validators

Embeds the `validate_*` functions of `create_models_with_cross_validation.py`
(duplicated verbatim as methods of `Validation` in `validation.py`).
A raised `ValueError` becomes `Except.error` carrying the message. -/

/-- Embeds `validate_image_size`: raises unless `img_size >= 4`. -/
def validate_image_size (img_size : ℤ) : Except String ℤ :=
  if img_size ≥ 4 then Except.ok img_size
  else Except.error "not a valid image dimension (in pixels). Must be >= 4."

/-- Embeds `validate_learning_rate`: raises unless `0 < lr <= 1`. -/
def validate_learning_rate (lr : ℚ) : Except String ℚ :=
  if 0 < lr ∧ lr ≤ 1 then Except.ok lr
  else Except.error "not a valid learning rate. Must be in range 0 (exclusive) to 1 (inclusive)."

/-- Embeds `validate_n_folds`: raises unless `n_folds >= 2`. -/
def validate_n_folds (n_folds : ℤ) : Except String ℤ :=
  if n_folds ≥ 2 then Except.ok n_folds
  else Except.error "not a valid number of folds. Must be >= 2."

/-- Embeds `validate_n_epochs`: the range check is commented out in the
source, so the argument is returned unchanged and no exception is ever
raised. -/
def validate_n_epochs (n_epochs : ℤ) : Except String ℤ :=
  Except.ok n_epochs

/-- Embeds `validate_batch_size`: raises unless `batch_size >= 2`. -/
def validate_batch_size (batch_size : ℤ) : Except String ℤ :=
  if batch_size ≥ 2 then Except.ok batch_size
  else Except.error "not a valid batch size. Must be >= 2."

/-! ## Python runtime errors and values

The interface mismatches between `create_models_with_cross_validation.py`
and `data_and_visualization_io.py` surface as Python runtime errors, so the
embedding makes arities, method tables and positional argument values
explicit. -/

inductive PyError where
  | typeError
  | attributeError
  deriving DecidableEq

/-- The runtime values that flow through `Charts.update`: a heterogeneous
Python argument is one of these. -/
inductive PyVal where
  | nat (n : Nat)
  | labels (l : List ℕ)
  | probs (l : List ℚ)
  | classLabels (a b : String)
  | history (h : History)
  deriving DecidableEq

/-! ## External ROC collaborator

`ROCChart.update` calls `sklearn.metrics.roc_curve` and
`sklearn.metrics.roc_auc_score`, which are not code of this repository. -/

/-- Insert into a descending-sorted list. -/
def insertDesc (x : ℚ) : List ℚ → List ℚ
  | [] => [x]
  | y :: ys => if y ≤ x then x :: y :: ys else y :: insertDesc x ys

/-- Sort a list of rationals in descending order. -/
def sortDesc (l : List ℚ) : List ℚ :=
  l.foldr insertDesc []

/-- Modelled from the spec: the external collaborator
`sklearn.metrics.roc_auc_score` — "the area under" the ROC curve, via the
equivalent pair-counting (Mann–Whitney) form: the fraction of
(positive, negative) example pairs ranked correctly, ties counting one
half. -/
def roc_auc_score (labels : List ℕ) (probs : List ℚ) : ℚ :=
  let pairs := labels.zip probs
  let pos := (pairs.filter (fun p => p.1 == 1)).map Prod.snd
  let neg := (pairs.filter (fun p => p.1 == 0)).map Prod.snd
  let total : ℚ :=
    (pos.map (fun p =>
      (neg.map (fun q => if q < p then (1 : ℚ) else if q = p then 1/2 else 0)).sum)).sum
  total / ((pos.length : ℚ) * (neg.length : ℚ))

/-- Modelled from the spec: the external collaborator
`sklearn.metrics.roc_curve` — "false-positive-rate vs true-positive-rate at
all distinct probability thresholds, descending". Returns
`(fpr, tpr, thresholds)`. -/
def roc_curve (labels : List ℕ) (probs : List ℚ) : List ℚ × List ℚ × List ℚ :=
  let thresholds := sortDesc probs.dedup
  let pairs := labels.zip probs
  let posCount := (labels.filter (fun l => l == 1)).length
  let negCount := (labels.filter (fun l => l == 0)).length
  let fpr := thresholds.map (fun t =>
    (((pairs.filter (fun p => p.1 == 0 && decide (t ≤ p.2))).length : ℚ) / (negCount : ℚ)))
  let tpr := thresholds.map (fun t =>
    (((pairs.filter (fun p => p.1 == 1 && decide (t ≤ p.2))).length : ℚ) / (posCount : ℚ)))
  (fpr, tpr, thresholds)

/-! ## ROCChart

Embeds class `ROCChart` of `data_and_visualization_io.py`: state is the
three fold-indexed dicts `tpr`, `fpr`, `auc`; `path` and `file_extension`
come from the base class `Chart` (`os.path.join('graphs', 'mean_ROC')` and
`'.png'`). -/

structure ROCChart where
  path : String
  file_extension : String
  tpr : List (Nat × List ℚ)
  fpr : List (Nat × List ℚ)
  auc : List (Nat × ℚ)
  deriving DecidableEq

/-- Embeds `ROCChart.__init__`. -/
def ROCChart.init : ROCChart :=
  { path := "graphs/mean_ROC", file_extension := ".png",
    tpr := [], fpr := [], auc := [] }

/-- Embeds `ROCChart.update(self, index, validation_labels,
prediction_probability, history)`: computes the ROC curve and AUC from the
labels and probabilities, stores them under key `index` in the three
dicts, then renders and saves the chart (`create_chart` and `save` touch
only the plotting library, not this state). The `history` parameter is
unused by the source body. -/
def ROCChart.update (c : ROCChart) (index : Nat) (validation_labels : List ℕ)
    (prediction_probability : List ℚ) (_history : History) : ROCChart :=
  let r := roc_curve validation_labels prediction_probability
  let latest_auc := roc_auc_score validation_labels prediction_probability
  { c with
    fpr := dictInsert c.fpr index r.1,
    tpr := dictInsert c.tpr index r.2.1,
    auc := dictInsert c.auc index latest_auc }

/-- Embeds `ROCChart.save`: the file written is
`self.path + str(index) + self.file_extension`. -/
def ROCChart.save_path (c : ROCChart) (index : Nat) : String :=
  c.path ++ toString index ++ c.file_extension

/-- Embeds `ROCChart.finalize`: the body is `pass`. -/
def ROCChart.finalize (c : ROCChart) : ROCChart :=
  c

/-! ## AccuracyChart

Embeds class `AccuracyChart` of `data_and_visualization_io.py`. -/

structure AccuracyChart where
  path : String
  file_extension : String
  training : List (Nat × List ℚ)
  validation : List (Nat × List ℚ)
  deriving DecidableEq

/-- Embeds `AccuracyChart.__init__`. -/
def AccuracyChart.init : AccuracyChart :=
  { path := "graphs/accuracy", file_extension := ".png",
    training := [], validation := [] }

/-- Embeds `AccuracyChart.update`: stores the per-epoch accuracy series
under key `index`, then renders and saves. -/
def AccuracyChart.update (c : AccuracyChart) (index : Nat) (history : History) :
    AccuracyChart :=
  { c with
    training := dictInsert c.training index history.acc,
    validation := dictInsert c.validation index history.val_acc }

/-- Embeds `AccuracyChart.save`: the file written is
`os.path.join('graphs', 'val_accuracy_' + str(index) + '.png')` — note it
ignores `self.path`. -/
def AccuracyChart.save_path (index : Nat) : String :=
  "graphs/" ++ ("val_accuracy_" ++ toString index ++ ".png")

/-! ## Charts aggregator

Embeds class `Charts` of `data_and_visualization_io.py`. In the source,
`__init__(self)` takes no further argument and appends a single `ROCChart()`
to `self.all_charts`; the `AccuracyChart()` and `LossChart()` registrations
are commented out, no `LossChart` or confusion-matrix chart class exists,
and the `finalize` method is commented out. -/

/-- The chart classes the repository's diagnostics could register. -/
inductive ChartKind where
  | roc
  | accuracy
  | loss
  | confusion
  deriving DecidableEq

/-- Embeds `Charts.__init__`'s registration list `self.all_charts`: only
`ROCChart()` is appended in the source. -/
def Charts.all_charts : List ChartKind :=
  [ChartKind.roc]

/-- Embeds a Python call `Charts(*args)`: `__init__(self)` declares no
parameter besides `self`, so any extra positional argument raises
`TypeError`; a bare `Charts()` yields the registration list. -/
def Charts.construct (args : List ℤ) : Except PyError (List ChartKind) :=
  if args.length == 0 then Except.ok Charts.all_charts
  else Except.error PyError.typeError

/-- Embeds line 48 of `create_models_with_cross_validation.py`
(`charts = Charts(n_folds)` in `setup`): the driver passes the fold count
as a positional argument. -/
def setup_charts_call (n_folds : ℤ) : Except PyError (List ChartKind) :=
  Charts.construct [n_folds]

/-- The methods defined on class `Charts` in the source: `update` is
defined; `finalize` is commented out, so looking it up raises
`AttributeError`. -/
inductive ChartsMethod where
  | update
  | finalize
  deriving DecidableEq

/-- Method table of class `Charts` as written in the source. -/
def Charts.has_method : ChartsMethod → Bool
  | ChartsMethod.update => true
  | ChartsMethod.finalize => false

/-- One dynamically dispatched method call made by `Charts.update` on a
registered chart: the receiver and the positional arguments passed. -/
structure MethodCall where
  receiver : ChartKind
  args : List PyVal
  deriving DecidableEq

/-- Embeds `Charts.update(self, history, index, validation_labels,
validation_predicted_classification, prediction_probability)`: for each
registered chart it executes
`each.update(index, validation_labels, prediction_probability)` — exactly
three positional arguments, taken from those parameter slots; the
`history` and `validation_predicted_classification` slots are not
forwarded. Returns the list of calls issued, in registration order. -/
def Charts.update_calls (_history : PyVal) (index : PyVal)
    (validation_labels : PyVal) (_validation_predicted_classification : PyVal)
    (prediction_probability : PyVal) : List MethodCall :=
  Charts.all_charts.map (fun k =>
    { receiver := k, args := [index, validation_labels, prediction_probability] })

/-- Number of positional parameters (besides `self`) that each chart
class's `update` method declares in the source:
`ROCChart.update(self, index, validation_labels, prediction_probability,
history)` and `AccuracyChart.update` likewise declare four. -/
def chart_update_arity : ChartKind → Nat
  | ChartKind.roc => 4
  | ChartKind.accuracy => 4
  | ChartKind.loss => 4
  | ChartKind.confusion => 4

/-- Embeds line 34 of `create_models_with_cross_validation.py`:
`charts.update(history, index, validation_set[1],
validation_predicted_probability, class_labels)` — the driver's five
positional arguments bind, in order, to `history`, `index`,
`validation_labels`, `validation_predicted_classification`,
`prediction_probability` of `Charts.update`. -/
def main_charts_update (history : History) (index : Nat)
    (validation_labels : List ℕ) (validation_predicted_probability : List ℚ)
    (class_labels : String × String) : List MethodCall :=
  Charts.update_calls (PyVal.history history) (PyVal.nat index)
    (PyVal.labels validation_labels)
    (PyVal.probs validation_predicted_probability)
    (PyVal.classLabels class_labels.1 class_labels.2)

/-! ## Summary-table accumulator

Embeds class `DataChartIO` of `data_and_visualization_io.py` (named
`DataChartState` here). Its `results` DataFrame is the list of appended
rows; `index` is the 1-based fold number set by the last update. -/

structure DataChartState where
  index : Nat
  history : Option History
  results : List (List ℚ)
  deriving DecidableEq

/-- Embeds `DataChartIO.__init__`. -/
def DataChartState.init : DataChartState :=
  { index := 0, history := none, results := [] }

/-- Embeds `DataChartIO.update_values(self, history, index, tp, fn, fp, tn)`:
sets `self.index = index + 1` (0-based to 1-based), and appends the row
`[index + 1, loss[-1], acc[-1], val_loss[-1], val_acc[-1], tn, fp, fn, tp]`
where the epoch position is `len(history.history['loss']) - 1`. A Python
`IndexError` (some series too short for that position) becomes `none`. -/
def DataChartState.update_values (d : DataChartState) (history : History)
    (index : Nat) (tp fn fp tn : ℚ) : Option DataChartState :=
  let num_epochs := history.loss.length
  match history.loss.get? (num_epochs - 1), history.acc.get? (num_epochs - 1),
      history.val_loss.get? (num_epochs - 1), history.val_acc.get? (num_epochs - 1) with
  | some l, some a, some vl, some va =>
    some { index := index + 1, history := some history,
           results := d.results ++
             [[((index : ℚ) + 1), l, a, vl, va, tn, fp, fn, tp]] }
  | _, _, _, _ => none

/-- Embeds the file path written by `DataChartIO.plot_accuracy`:
`os.path.join('graphs', 'val_accuracy_' + str(self.index) + '.png')`. -/
def DataChartState.plot_accuracy_path (d : DataChartState) : String :=
  "graphs/" ++ ("val_accuracy_" ++ toString d.index ++ ".png")

/-- Embeds the file path written by `DataChartIO.plot_loss`:
`os.path.join('graphs', 'val_loss_' + str(self.index) + '.png')`. -/
def DataChartState.plot_loss_path (d : DataChartState) : String :=
  "graphs/" ++ ("val_loss_" ++ toString d.index ++ ".png")

/-- Embeds `DataChartIO.save_results_to_csv`: the `rename` call's result is
discarded (it is not in-place and not reassigned), and `self.results` is
written as CSV to `os.path.join('graphs', 'final_acc_loss.csv')` with no
length check and no possibility of a length-mismatch error. Returns the
persisted artifact: its path and its rows. -/
def DataChartState.save_results_to_csv (d : DataChartState) :
    String × List (List ℚ) :=
  ("graphs/" ++ "final_acc_loss.csv", d.results)

/-- One fold's inputs to `update_values`: `(history, tp, fn, fp, tn)`. -/
abbrev FoldStats := History × ℚ × ℚ × ℚ × ℚ

/-- Runs `update_values` once per fold, with 0-based fold indices counting
up from `i` — the way the driver's `enumerate` loop feeds it. -/
def DataChartState.apply_folds :
    DataChartState → List FoldStats → Nat → Option DataChartState
  | d, [], _ => some d
  | d, f :: rest, i =>
    match d.update_values f.1 i f.2.1 f.2.2.1 f.2.2.2.1 f.2.2.2.2 with
    | some d' => DataChartState.apply_folds d' rest (i + 1)
    | none => none

/-- The row that fold `i` (0-based) contributes to the summary, as the
amended claim states it: 1-based fold number first, then the final-epoch
training loss, training accuracy, validation loss and validation accuracy
(at the last position of the `loss` series), then `tn, fp, fn, tp`. -/
def expected_row (h : History) (i : Nat) (tp fn fp tn : ℚ) : List ℚ :=
  [(i : ℚ) + 1,
   h.loss.getD (h.loss.length - 1) 0,
   h.acc.getD (h.loss.length - 1) 0,
   h.val_loss.getD (h.loss.length - 1) 0,
   h.val_acc.getD (h.loss.length - 1) 0,
   tn, fp, fn, tp]

/-! ## Cross-validation driver

Embeds the control flow of `main` in
`create_models_with_cross_validation.py` as the sequence of calls it
issues. A fold partition, as produced by the external
`StratifiedKFold.split`, is a pair of index lists; `main` enumerates them
with 0-based indices. -/

/-- One observable step of the driver. -/
inductive Event where
  | validateArgs
  | mkTrainer
  | loadImages
  | mkArchitecture
  | mkCharts
  | resetModel (fold : Nat)
  | buildTrainingSet (fold : Nat)
  | buildValidationSet (fold : Nat)
  | trainModel (fold : Nat)
  | predictProbability (fold : Nat)
  | chartsUpdate (fold : Nat)
  | chartsFinalize
  deriving DecidableEq

/-- Embeds `setup` (and the `get_arguments` call it begins with): validate
the arguments, construct the `ModelTrainer`, load the `LabeledImages`,
construct the `SmithsonianModel`, construct `Charts`. -/
def setupEvents : List Event :=
  [Event.validateArgs, Event.mkTrainer, Event.loadImages,
   Event.mkArchitecture, Event.mkCharts]

/-- Embeds the body of the driver's `for index, (training_idx_list,
validation_idx_list) in enumerate(skf.split(...))` loop, in source order:
`architecture.reset_model()`, `images.subset(training_idx_list)`,
`images.subset(validation_idx_list)`,
`trainer.train_new_model_and_save(...)`,
`architecture.model.predict_proba(...)`, `charts.update(...)`. -/
def mainLoop : List (List Nat × List Nat) → Nat → List Event
  | [], _ => []
  | _ :: rest, i =>
    Event.resetModel i :: Event.buildTrainingSet i :: Event.buildValidationSet i ::
      Event.trainModel i :: Event.predictProbability i :: Event.chartsUpdate i ::
        mainLoop rest (i + 1)

/-- The six steps of fold `i`, in the order the loop body issues them. -/
def foldIteration (i : Nat) : List Event :=
  [Event.resetModel i, Event.buildTrainingSet i, Event.buildValidationSet i,
   Event.trainModel i, Event.predictProbability i, Event.chartsUpdate i]

/-- Embeds `main`: `setup()`, then the fold loop over the partitions
returned by `StratifiedKFold.split`, then `finalize(charts, ...)`, whose
first statement is `charts.finalize()`. -/
def mainTrace (partitions : List (List Nat × List Nat)) : List Event :=
  setupEvents ++ mainLoop partitions 0 ++ [Event.chartsFinalize]

/-! ## Python string primitives and `validate_image_folders`

`validate_image_folders` computes the class labels with
`c.strip(os.path.sep)`, `c.split(os.path.sep)` and
`c.count(os.path.sep)`; these Python string methods are embedded on
`List Char` for a single separator character. -/

/-- Python `s.strip(c)` for a single character: remove all leading and
trailing occurrences of `c`. -/
def pyStrip (c : Char) (s : List Char) : List Char :=
  ((s.dropWhile (fun x => x == c)).reverse.dropWhile (fun x => x == c)).reverse

/-- Python `s.split(c)` for a single-character separator: split at every
occurrence, keeping empty pieces (`''.split(c) == ['']`). -/
def pySplit (c : Char) : List Char → List (List Char)
  | [] => [[]]
  | x :: xs =>
    if x == c then
      [] :: pySplit c xs
    else
      match pySplit c xs with
      | [] => [[x]]
      | h :: t => (x :: h) :: t

/-- Python `s.count(c)` for a single character. -/
def pyCount (c : Char) (s : List Char) : Nat :=
  (s.filter (fun x => x == c)).length

/-- The path separator `os.path.sep` on the POSIX systems the repository
targets. -/
def pathSep : Char := '/'

/-- Embeds the class-label computation of `validate_image_folders`:
`c = arg.strip(os.path.sep)` then `c = c.split(os.path.sep)[c.count(os.path.sep)]`. -/
def class_label_of (arg : String) : String :=
  let c := pyStrip pathSep arg.data
  String.mk ((pySplit pathSep c).getD (pyCount pathSep c) [])

/-- The final path component of a path after stripping leading and
trailing separators, as the claim words it: the last piece of the split. -/
def finalPathComponent (arg : String) : String :=
  let c := pyStrip pathSep arg.data
  String.mk (((pySplit pathSep c).getLast?).getD [])

/-- Embeds `validate_image_folders(args)`: raises `NotADirectoryError`
when either directory is missing (`isdir` stands for the external
`os.path.isdir`), otherwise returns `(image_folders, class_labels)` where
`image_folders` is the pair of arguments unchanged and `class_labels` the
derived pair. -/
def validate_image_folders (isdir : String → Bool) (c1 c2 : String) :
    Except String ((String × String) × (String × String)) :=
  if !isdir c1 then Except.error (c1 ++ " is not a valid directory path.")
  else if !isdir c2 then Except.error (c2 ++ " is not a valid directory path.")
  else Except.ok ((c1, c2), (class_label_of c1, class_label_of c2))

/-! ## Auxiliary definitions used by the theorems below -/

/-- Whether an `Except` value is a success. -/
def exceptIsOk {ε α : Type} : Except ε α → Bool
  | Except.ok _ => true
  | Except.error _ => false

/-- Whether a driver event is a classifier reset. -/
def Event.isReset : Event → Bool
  | Event.resetModel _ => true
  | _ => false

/-- Whether a driver event is a training invocation. -/
def Event.isTrain : Event → Bool
  | Event.trainModel _ => true
  | _ => false

/-- Whether a driver event is the aggregator-finalize call. -/
def Event.isFinalize : Event → Bool
  | Event.chartsFinalize => true
  | _ => false

/-- A concrete one-epoch training history used as test input. -/
def sampleHistory : History :=
  { loss := [1/2], acc := [3/4], val_loss := [1/4], val_acc := [7/8] }

/-- Concrete predicted probabilities used as test input. -/
def sampleProbs : List ℚ :=
  [1/5, 4/5]

/-- One concrete fold's statistics `(history, tp, fn, fp, tn)`. -/
def sampleFold : FoldStats :=
  (sampleHistory, 1, 2, 3, 4)

/-- The `DataChartIO` state reached from `init` by the single update of
`sampleFold` at fold index 0. -/
def sampleState : DataChartState :=
  { index := 1, history := some sampleHistory,
    results := [[1, 1/2, 3/4, 1/4, 7/8, 4, 3, 2, 1]] }

/-- ROC accumulator state after one update at fold index 0 with perfectly
separated predictions. -/
def rocState1 : ROCChart :=
  ROCChart.update ROCChart.init 0 [0, 1] [0, 1] sampleHistory

/-- ROC accumulator state after a second update that reuses fold index 0
with the reversed predictions. -/
def rocState2 : ROCChart :=
  ROCChart.update rocState1 0 [0, 1] [1, 0] sampleHistory

/-! ## Helper lemmas -/

theorem dictLookup_dictInsert_self {α : Type} (d : List (Nat × α)) (k : Nat) (v : α) :
    dictLookup (dictInsert d k v) k = some v := by
  induction d with
  | nil => simp [dictInsert, dictLookup]
  | cons p rest ih =>
    by_cases h : p.1 = k
    · simp [dictInsert, dictLookup, h]
    · simp [dictInsert, dictLookup, h, ih]

theorem dictLookup_dictInsert_ne {α : Type} (d : List (Nat × α)) (k j : Nat) (v : α)
    (h : j ≠ k) : dictLookup (dictInsert d k v) j = dictLookup d j := by
  induction d with
  | nil => simp [dictInsert, dictLookup, Ne.symm h]
  | cons p rest ih =>
    by_cases hp : p.1 = k
    · simp [dictInsert, dictLookup, hp, Ne.symm h]
    · simp [dictInsert, dictLookup, hp, ih]

theorem length_dictInsert_fresh {α : Type} (d : List (Nat × α)) (k : Nat) (v : α)
    (h : dictHasKey d k = false) : (dictInsert d k v).length = d.length + 1 := by
  induction d with
  | nil => simp [dictInsert]
  | cons p rest ih =>
    simp only [dictHasKey, Bool.or_eq_false_iff] at h
    simp only [dictInsert, h.1, if_false]
    simp [ih h.2]

theorem update_values_eq (d : DataChartState) (h : History) (i : Nat)
    (tp fn fp tn : ℚ) (d' : DataChartState)
    (hu : DataChartState.update_values d h i tp fn fp tn = some d') :
    d' = { index := i + 1, history := some h,
           results := d.results ++ [expected_row h i tp fn fp tn] } := by
  unfold DataChartState.update_values at hu
  simp only [] at hu
  split at hu
  · next l a vl va hl ha hvl hva =>
      simp only [Option.some.injEq] at hu
      subst hu
      simp [expected_row, List.getD, ← List.get?_eq_getElem?, hl, ha, hvl, hva]
  · exact absurd hu (by simp)

theorem apply_folds_results (folds : List FoldStats) :
    ∀ (d0 d : DataChartState) (i : Nat),
    DataChartState.apply_folds d0 folds i = some d →
    d.results = d0.results ++
      (List.enumFrom i folds).map
        (fun p => expected_row p.2.1 p.1 p.2.2.1 p.2.2.2.1 p.2.2.2.2.1 p.2.2.2.2.2) := by
  induction folds with
  | nil =>
    intro d0 d i h
    simp only [DataChartState.apply_folds, Option.some.injEq] at h
    subst h
    simp
  | cons f rest ih =>
    intro d0 d i h
    unfold DataChartState.apply_folds at h
    cases hu : DataChartState.update_values d0 f.1 i f.2.1 f.2.2.1 f.2.2.2.1 f.2.2.2.2 with
    | none => rw [hu] at h; exact absurd h (by simp)
    | some d1 =>
      rw [hu] at h
      have hd1 := update_values_eq d0 f.1 i f.2.1 f.2.2.1 f.2.2.2.1 f.2.2.2.2 d1 hu
      have hrec := ih d1 d (i + 1) h
      rw [hrec, hd1]
      simp [List.enumFrom, List.append_assoc]

theorem mainLoop_eq (parts : List (List Nat × List Nat)) :
    ∀ i, mainLoop parts i
      = ((List.range parts.length).map (fun j => foldIteration (i + j))).flatten := by
  induction parts with
  | nil => intro i; simp [mainLoop]
  | cons p rest ih =>
    intro i
    have hstep : mainLoop (p :: rest) i = foldIteration i ++ mainLoop rest (i + 1) := rfl
    rw [hstep, ih (i + 1), List.length_cons, List.range_succ_eq_map]
    simp only [List.map_cons, List.flatten_cons, Nat.add_zero, List.map_map]
    congr 2
    apply List.map_congr_left
    intro j _
    simp only [Function.comp]
    exact congrArg foldIteration (by omega)

theorem mainLoop_counts (parts : List (List Nat × List Nat)) :
    ∀ i, (mainLoop parts i).countP Event.isReset = parts.length
      ∧ (mainLoop parts i).countP Event.isTrain = parts.length
      ∧ (mainLoop parts i).countP Event.isFinalize = 0 := by
  induction parts with
  | nil => intro i; simp [mainLoop]
  | cons p rest ih =>
    intro i
    have h := ih (i + 1)
    have hstep : mainLoop (p :: rest) i = foldIteration i ++ mainLoop rest (i + 1) := rfl
    rw [hstep]
    simp [foldIteration, List.countP_append, List.countP_cons,
      Event.isReset, Event.isTrain, Event.isFinalize, h.1, h.2.1, h.2.2]

theorem pySplit_ne_nil (c : Char) (s : List Char) : pySplit c s ≠ [] := by
  induction s with
  | nil => simp [pySplit]
  | cons x xs ih =>
    by_cases h : x = c
    · simp [pySplit, h]
    · simp only [pySplit, beq_iff_eq, h, if_false]
      cases hs : pySplit c xs with
      | nil => simp
      | cons a t => simp

theorem length_pySplit (c : Char) (s : List Char) :
    (pySplit c s).length = pyCount c s + 1 := by
  induction s with
  | nil => simp [pySplit, pyCount]
  | cons x xs ih =>
    by_cases h : x = c
    · simp [pySplit, pyCount, h, ih]
    · simp only [pySplit, beq_iff_eq, h, if_false]
      cases hs : pySplit c xs with
      | nil => exact absurd hs (pySplit_ne_nil c xs)
      | cons a t =>
        rw [hs] at ih
        simp only [List.length_cons] at ih ⊢
        simp [pyCount, h] at ih ⊢
        omega

theorem getD_length_sub_one {α : Type} (l : List α) (d : α) (h : l ≠ []) :
    l.getD (l.length - 1) d = (l.getLast?).getD d := by
  induction l with
  | nil => exact absurd rfl h
  | cons x xs ih =>
    cases xs with
    | nil => simp [List.getD]
    | cons y ys =>
      have hne : (y :: ys : List α) ≠ [] := by simp
      have := ih hne
      simp only [List.length_cons, List.getLast?_cons_cons]
      rw [← this]
      simp [List.getD]

theorem class_label_eq_final (arg : String) :
    class_label_of arg = finalPathComponent arg := by
  unfold class_label_of finalPathComponent
  simp only []
  have h1 := length_pySplit pathSep (pyStrip pathSep arg.data)
  have hne := pySplit_ne_nil pathSep (pyStrip pathSep arg.data)
  have hcount : pyCount pathSep (pyStrip pathSep arg.data)
      = (pySplit pathSep (pyStrip pathSep arg.data)).length - 1 := by omega
  rw [hcount, getD_length_sub_one _ _ hne]

/-! ## Claim C1 — persisted summary table -/

/-- Claim C1 counterexample: the claim asserts ten columns
`Fold, auc, training_acc, validation_acc, training_loss, validation_loss,
tp, fn, fp, tn`. At the concrete input (one fold, `sampleHistory`,
`tp = 1, fn = 2, fp = 3, tn = 4`), the row that `update_values` appends —
and that `save_results_to_csv` later persists unchanged — is
`[1, 1/2, 3/4, 1/4, 7/8, 4, 3, 2, 1]`: nine entries, no `auc` value
anywhere, and the counts ordered `tn, fp, fn, tp`, so the claimed column
list (ten columns, `auc` second, counts ordered `tp, fn, fp, tn`) is
false. -/
theorem summary_row_lacks_auc_column :
    (DataChartState.update_values DataChartState.init sampleHistory 0 1 2 3 4).map
        DataChartState.results
      = some [[1, 1/2, 3/4, 1/4, 7/8, 4, 3, 2, 1]]
    ∧ ([(1 : ℚ), 1/2, 3/4, 1/4, 7/8, 4, 3, 2, 1].length = 9)
    ∧ (9 : Nat) ≠ 10 := by
  refine ⟨?_, rfl, by decide⟩
  norm_num [DataChartState.update_values, DataChartState.init, sampleHistory]

/-- Claim C1 as amended: after one `update_values` call per fold (0-based
indices, as the driver's `enumerate` supplies them), `save_results_to_csv`
persists exactly one table, at `graphs/final_acc_loss.csv`, holding
exactly one row per fold; each row is
`[fold, training_loss, training_acc, validation_loss, validation_acc,
tn, fp, fn, tp]` (nine columns, no `auc`), with 1-based fold numbers
`1..n` in the first column, the per-epoch values taken at the final index
of the `loss` series. -/
theorem summary_table_rows_spec (folds : List FoldStats) (d : DataChartState)
    (h : DataChartState.apply_folds DataChartState.init folds 0 = some d) :
    d.results = folds.enum.map
        (fun p => expected_row p.2.1 p.1 p.2.2.1 p.2.2.2.1 p.2.2.2.2.1 p.2.2.2.2.2)
    ∧ d.results.length = folds.length
    ∧ d.results.map (fun r => r.getD 0 0)
        = (List.range folds.length).map (fun i : Nat => (i : ℚ) + 1)
    ∧ (∀ r ∈ d.results, r.length = 9)
    ∧ DataChartState.save_results_to_csv d = ("graphs/final_acc_loss.csv", d.results) := by
  have hr := apply_folds_results folds DataChartState.init d 0 h
  simp only [DataChartState.init, List.nil_append] at hr
  have henum : List.enumFrom 0 folds = folds.enum := rfl
  rw [henum] at hr
  refine ⟨hr, ?_, ?_, ?_, rfl⟩
  · rw [hr]; simp
  · calc d.results.map (fun r => r.getD 0 0)
        = folds.enum.map (fun p => (p.1 : ℚ) + 1) := by
          rw [hr, List.map_map]
          apply List.map_congr_left
          intro p _
          rfl
      _ = (folds.enum.map Prod.fst).map (fun i : Nat => (i : ℚ) + 1) := by
          rw [List.map_map]
          rfl
      _ = (List.range folds.length).map (fun i : Nat => (i : ℚ) + 1) := by
          rw [List.enum_map_fst]
  · intro r hrmem
    rw [hr] at hrmem
    obtain ⟨p, _, rfl⟩ := List.mem_map.mp hrmem
    rfl

/-- Witness for the amended C1 theorem at one concrete fold. -/
theorem summary_table_rows_spec_witness :
    DataChartState.apply_folds DataChartState.init [sampleFold] 0 = some sampleState
    ∧ (sampleState.results = [sampleFold].enum.map
        (fun p => expected_row p.2.1 p.1 p.2.2.1 p.2.2.2.1 p.2.2.2.2.1 p.2.2.2.2.2)
      ∧ sampleState.results.length = [sampleFold].length
      ∧ sampleState.results.map (fun r => r.getD 0 0)
          = (List.range [sampleFold].length).map (fun i : Nat => (i : ℚ) + 1)
      ∧ (∀ r ∈ sampleState.results, r.length = 9)
      ∧ DataChartState.save_results_to_csv sampleState
          = ("graphs/final_acc_loss.csv", sampleState.results)) := by
  have hfolds : DataChartState.apply_folds DataChartState.init [sampleFold] 0
      = some sampleState := by
    norm_num [DataChartState.apply_folds, DataChartState.update_values,
      sampleFold, sampleHistory, DataChartState.init, sampleState]
  exact ⟨hfolds, summary_table_rows_spec [sampleFold] sampleState hfolds⟩

/-! ## Claim C2 — aggregator construction -/

/-- Claim C2: constructing the aggregator as the driver does —
`Charts(n_folds)`, here with the default `n_folds = 10` — raises
`TypeError`, because `Charts.__init__` accepts no fold-count argument;
and even the no-argument construction registers a single accumulator (the
ROC chart), not one per diagnostic: the accuracy and loss registrations
are commented out and no loss or confusion-matrix chart class exists. The
code therefore contradicts its own caller, so the claim fails on a code
bug. -/
theorem charts_construction_mismatch :
    setup_charts_call 10 = Except.error PyError.typeError
    ∧ Charts.construct [] = Except.ok [ChartKind.roc]
    ∧ Charts.all_charts.length = 1
    ∧ (1 : Nat) ≠ 4 :=
  ⟨rfl, rfl, rfl, by decide⟩

/-! ## Claim C3 — update fan-out argument routing -/

/-- Claim C3: at the concrete fold (index 0, validation labels `[0, 1]`,
predicted probabilities `sampleProbs`, class labels `("a", "b")`), the only
call `Charts.update` issues is `roc.update(0, [0, 1], ("a", "b"))`: the
value forwarded in the probabilities position is the class-label pair
(bound to the `prediction_probability` parameter by the driver's
positional call), the actual predicted probabilities appear nowhere in the
forwarded arguments, and only three arguments are passed although
`ROCChart.update` declares four — a `TypeError` — so the ROC accumulator
never computes anything from the predicted probabilities. The parameter
names show the intent the code misses, so the claim fails on a code
bug. -/
theorem charts_update_drops_probabilities :
    main_charts_update sampleHistory 0 [0, 1] sampleProbs ("a", "b")
      = [{ receiver := ChartKind.roc,
           args := [PyVal.nat 0, PyVal.labels [0, 1], PyVal.classLabels "a" "b"] }]
    ∧ PyVal.probs sampleProbs
        ∉ [PyVal.nat 0, PyVal.labels [0, 1], PyVal.classLabels "a" "b"]
    ∧ [PyVal.nat 0, PyVal.labels [0, 1], PyVal.classLabels "a" "b"].length = 3
    ∧ chart_update_arity ChartKind.roc = 4 := by
  refine ⟨rfl, ?_, rfl, rfl⟩
  decide

/-! ## Claim C4 — driver sequencing -/

/-- Claim C4: the driver's trace is the setup prefix, then — for each of
the `n` partitions, in order — exactly the block reset, build training
subset, build validation subset, train, predict, aggregator update, and
then a single aggregator-finalize call; consequently reset and train are
each issued exactly `n` times and finalize exactly once. -/
theorem driver_loop_spec (parts : List (List Nat × List Nat)) (n : Nat)
    (h : parts.length = n) :
    mainTrace parts
      = setupEvents ++ (((List.range n).map foldIteration).flatten ++ [Event.chartsFinalize])
    ∧ (mainTrace parts).countP Event.isReset = n
    ∧ (mainTrace parts).countP Event.isTrain = n
    ∧ (mainTrace parts).countP Event.isFinalize = 1 := by
  subst h
  have hc := mainLoop_counts parts 0
  refine ⟨?_, ?_, ?_, ?_⟩
  · rw [mainTrace, mainLoop_eq parts 0]
    simp
  · simp [mainTrace, List.countP_append, setupEvents,
      Event.isReset, Event.isTrain, Event.isFinalize, hc.1]
  · simp [mainTrace, List.countP_append, setupEvents,
      Event.isReset, Event.isTrain, Event.isFinalize, hc.2.1]
  · simp [mainTrace, List.countP_append, setupEvents,
      Event.isReset, Event.isTrain, Event.isFinalize, hc.2.2]

/-- Witness for the C4 theorem with two concrete partitions, matching the
spec's two-fold end-to-end scenario. -/
theorem driver_loop_spec_witness :
    ([([0], [1]), ([2], [3])] : List (List Nat × List Nat)).length = 2
    ∧ (mainTrace [([0], [1]), ([2], [3])]
        = setupEvents ++ (((List.range 2).map foldIteration).flatten ++ [Event.chartsFinalize])
      ∧ (mainTrace [([0], [1]), ([2], [3])]).countP Event.isReset = 2
      ∧ (mainTrace [([0], [1]), ([2], [3])]).countP Event.isTrain = 2
      ∧ (mainTrace [([0], [1]), ([2], [3])]).countP Event.isFinalize = 1) :=
  ⟨rfl, driver_loop_spec [([0], [1]), ([2], [3])] 2 rfl⟩

/-! ## Claim C5 — ROC accumulator state -/

/-- Claim C5 counterexample: the second update of `rocState2` reuses fold
index 0 and is a later operation that modifies the previously inserted
entry — `auc[0]` changes from 1 to 0 — so "an entry for a previously
inserted fold index is never modified by any later operation" is false as
stated. -/
theorem roc_entry_overwritten :
    dictLookup rocState1.auc 0 = some 1
    ∧ dictLookup rocState2.auc 0 = some 0
    ∧ ¬ (dictLookup rocState2.auc 0 = dictLookup rocState1.auc 0) := by
  have h1 : dictLookup rocState1.auc 0 = some 1 := by
    norm_num [rocState1, ROCChart.update, ROCChart.init, dictInsert, dictLookup,
      roc_auc_score]
  have h2 : dictLookup rocState2.auc 0 = some 0 := by
    norm_num [rocState2, rocState1, ROCChart.update, ROCChart.init, dictInsert,
      dictLookup, roc_auc_score]
  refine ⟨h1, h2, ?_⟩
  rw [h1, h2]
  norm_num

/-- Claim C5 as amended: an `update` call with a fold index not previously
seen inserts exactly one new entry into each of `fpr`, `tpr`, `auc`, keyed
by exactly the index passed and holding the ROC curve and AUC computed
from the call's labels and probabilities; entries under every other fold
index are left unchanged, and `finalize` (a `pass`) changes nothing —
but an update that reuses an already-inserted fold index overwrites that
entry. -/
theorem roc_update_insertion_spec (c : ROCChart) (index : Nat)
    (validation_labels : List ℕ) (prediction_probability : List ℚ) (h : History)
    (hf : dictHasKey c.fpr index = false) (ht : dictHasKey c.tpr index = false)
    (ha : dictHasKey c.auc index = false) :
    (ROCChart.update c index validation_labels prediction_probability h).fpr.length
        = c.fpr.length + 1
    ∧ (ROCChart.update c index validation_labels prediction_probability h).tpr.length
        = c.tpr.length + 1
    ∧ (ROCChart.update c index validation_labels prediction_probability h).auc.length
        = c.auc.length + 1
    ∧ dictLookup (ROCChart.update c index validation_labels prediction_probability h).fpr
        index = some (roc_curve validation_labels prediction_probability).1
    ∧ dictLookup (ROCChart.update c index validation_labels prediction_probability h).tpr
        index = some (roc_curve validation_labels prediction_probability).2.1
    ∧ dictLookup (ROCChart.update c index validation_labels prediction_probability h).auc
        index = some (roc_auc_score validation_labels prediction_probability)
    ∧ (∀ j, j ≠ index →
        dictLookup (ROCChart.update c index validation_labels prediction_probability h).fpr j
            = dictLookup c.fpr j
        ∧ dictLookup (ROCChart.update c index validation_labels prediction_probability h).tpr j
            = dictLookup c.tpr j
        ∧ dictLookup (ROCChart.update c index validation_labels prediction_probability h).auc j
            = dictLookup c.auc j)
    ∧ ROCChart.finalize (ROCChart.update c index validation_labels prediction_probability h)
        = ROCChart.update c index validation_labels prediction_probability h := by
  refine ⟨length_dictInsert_fresh c.fpr index _ hf,
    length_dictInsert_fresh c.tpr index _ ht,
    length_dictInsert_fresh c.auc index _ ha,
    dictLookup_dictInsert_self c.fpr index _,
    dictLookup_dictInsert_self c.tpr index _,
    dictLookup_dictInsert_self c.auc index _,
    fun j hj => ⟨dictLookup_dictInsert_ne c.fpr index j _ hj,
      dictLookup_dictInsert_ne c.tpr index j _ hj,
      dictLookup_dictInsert_ne c.auc index j _ hj⟩,
    rfl⟩

/-- Witness for the amended C5 theorem on the empty initial state. -/
theorem roc_update_insertion_spec_witness :
    dictHasKey ROCChart.init.fpr 0 = false
    ∧ dictHasKey ROCChart.init.tpr 0 = false
    ∧ dictHasKey ROCChart.init.auc 0 = false
    ∧ ((ROCChart.update ROCChart.init 0 [0, 1] [0, 1] sampleHistory).fpr.length
          = ROCChart.init.fpr.length + 1
      ∧ (ROCChart.update ROCChart.init 0 [0, 1] [0, 1] sampleHistory).tpr.length
          = ROCChart.init.tpr.length + 1
      ∧ (ROCChart.update ROCChart.init 0 [0, 1] [0, 1] sampleHistory).auc.length
          = ROCChart.init.auc.length + 1
      ∧ dictLookup (ROCChart.update ROCChart.init 0 [0, 1] [0, 1] sampleHistory).fpr 0
          = some (roc_curve [0, 1] [0, 1]).1
      ∧ dictLookup (ROCChart.update ROCChart.init 0 [0, 1] [0, 1] sampleHistory).tpr 0
          = some (roc_curve [0, 1] [0, 1]).2.1
      ∧ dictLookup (ROCChart.update ROCChart.init 0 [0, 1] [0, 1] sampleHistory).auc 0
          = some (roc_auc_score [0, 1] [0, 1])
      ∧ (∀ j, j ≠ 0 →
          dictLookup (ROCChart.update ROCChart.init 0 [0, 1] [0, 1] sampleHistory).fpr j
              = dictLookup ROCChart.init.fpr j
          ∧ dictLookup (ROCChart.update ROCChart.init 0 [0, 1] [0, 1] sampleHistory).tpr j
              = dictLookup ROCChart.init.tpr j
          ∧ dictLookup (ROCChart.update ROCChart.init 0 [0, 1] [0, 1] sampleHistory).auc j
              = dictLookup ROCChart.init.auc j)
      ∧ ROCChart.finalize (ROCChart.update ROCChart.init 0 [0, 1] [0, 1] sampleHistory)
          = ROCChart.update ROCChart.init 0 [0, 1] [0, 1] sampleHistory) :=
  ⟨rfl, rfl, rfl,
    roc_update_insertion_spec ROCChart.init 0 [0, 1] [0, 1] sampleHistory rfl rfl rfl⟩

/-! ## Claim C6 — early finalize -/

/-- Claim C6 counterexample: with `n_folds = 2` and only one update
performed, the persistence path raises no length-mismatch error — the
`Charts` class does not even define `finalize` (the driver's
`charts.finalize()` raises `AttributeError`), and
`DataChartIO.save_results_to_csv` silently persists a table with exactly
one row, fewer than `n_folds`, refuting the claim. -/
theorem early_finalize_silently_truncates :
    Charts.has_method ChartsMethod.finalize = false
    ∧ DataChartState.update_values DataChartState.init sampleHistory 0 1 2 3 4
        = some sampleState
    ∧ (DataChartState.save_results_to_csv sampleState).2.length = 1
    ∧ (1 : Nat) < 2 := by
  refine ⟨rfl, ?_, rfl, by decide⟩
  norm_num [DataChartState.update_values, DataChartState.init, sampleHistory, sampleState]

/-- Claim C6 as amended: invoking the persistence step after fewer than
`n_folds` updates does not fail with a length-mismatch error:
`save_results_to_csv` always succeeds and persists exactly the rows
accumulated so far — one per update performed — and `Charts` defines no
`finalize` method at all, so the driver's `charts.finalize()` raises
`AttributeError` instead of a length-mismatch error. -/
theorem save_results_no_length_check (folds : List FoldStats) (d : DataChartState)
    (h : DataChartState.apply_folds DataChartState.init folds 0 = some d) :
    DataChartState.save_results_to_csv d = ("graphs/final_acc_loss.csv", d.results)
    ∧ d.results.length = folds.length
    ∧ Charts.has_method ChartsMethod.finalize = false := by
  have hr := apply_folds_results folds DataChartState.init d 0 h
  simp only [DataChartState.init, List.nil_append] at hr
  refine ⟨rfl, ?_, rfl⟩
  rw [hr]
  simp

/-- Witness for the amended C6 theorem after a single update. -/
theorem save_results_no_length_check_witness :
    DataChartState.apply_folds DataChartState.init [sampleFold] 0 = some sampleState
    ∧ (DataChartState.save_results_to_csv sampleState
          = ("graphs/final_acc_loss.csv", sampleState.results)
      ∧ sampleState.results.length = [sampleFold].length
      ∧ Charts.has_method ChartsMethod.finalize = false) := by
  have hfolds : DataChartState.apply_folds DataChartState.init [sampleFold] 0
      = some sampleState := by
    norm_num [DataChartState.apply_folds, DataChartState.update_values,
      sampleFold, sampleHistory, DataChartState.init, sampleState]
  exact ⟨hfolds, save_results_no_length_check [sampleFold] sampleState hfolds⟩

/-! ## Claim C7 — chart artifact file names -/

/-- Claim C7 counterexample: for fold 0 the ROC chart is saved as
`graphs/mean_ROC0.png`, not the claimed zero-padded `mean_ROC00.png`, and
the accuracy chart as `graphs/val_accuracy_0.png`, not `accuracy00.png`,
so the claimed naming scheme is false. -/
theorem chart_filenames_unpadded :
    ROCChart.save_path ROCChart.init 0 = "graphs/mean_ROC0.png"
    ∧ "graphs/mean_ROC0.png" ≠ "graphs/mean_ROC00.png"
    ∧ AccuracyChart.save_path 0 = "graphs/val_accuracy_0.png"
    ∧ "graphs/val_accuracy_0.png" ≠ "graphs/accuracy00.png" :=
  ⟨rfl, by decide, rfl, by decide⟩

/-- Claim C7 as amended: per-fold chart artifacts are saved in the fixed
`graphs` directory with the unpadded decimal fold index: the ROC chart for
0-based fold `i` as `mean_ROC<i>.png`, the accuracy chart as
`val_accuracy_<i>.png`, and the `DataChartIO` accuracy and loss plots as
`val_accuracy_<i+1>.png` and `val_loss_<i+1>.png` using the 1-based fold
number set by the preceding `update_values`; no confusion-matrix image is
saved by any chart class. -/
theorem chart_filename_spec (i : Nat) (d d' : DataChartState) (h : History)
    (tp fn fp tn : ℚ)
    (hu : DataChartState.update_values d h i tp fn fp tn = some d') :
    ROCChart.save_path ROCChart.init i = "graphs/mean_ROC" ++ toString i ++ ".png"
    ∧ AccuracyChart.save_path i = "graphs/" ++ ("val_accuracy_" ++ toString i ++ ".png")
    ∧ DataChartState.plot_loss_path d'
        = "graphs/" ++ ("val_loss_" ++ toString (i + 1) ++ ".png")
    ∧ DataChartState.plot_accuracy_path d'
        = "graphs/" ++ ("val_accuracy_" ++ toString (i + 1) ++ ".png") := by
  have hd := update_values_eq d h i tp fn fp tn d' hu
  refine ⟨rfl, rfl, ?_, ?_⟩ <;> rw [hd] <;> rfl

/-- Witness for the amended C7 theorem at fold 0. -/
theorem chart_filename_spec_witness :
    DataChartState.update_values DataChartState.init sampleHistory 0 1 2 3 4
        = some sampleState
    ∧ (ROCChart.save_path ROCChart.init 0 = "graphs/mean_ROC" ++ toString 0 ++ ".png"
      ∧ AccuracyChart.save_path 0 = "graphs/" ++ ("val_accuracy_" ++ toString 0 ++ ".png")
      ∧ DataChartState.plot_loss_path sampleState
          = "graphs/" ++ ("val_loss_" ++ toString 1 ++ ".png")
      ∧ DataChartState.plot_accuracy_path sampleState
          = "graphs/" ++ ("val_accuracy_" ++ toString 1 ++ ".png")) := by
  have hu : DataChartState.update_values DataChartState.init sampleHistory 0 1 2 3 4
      = some sampleState := by
    norm_num [DataChartState.update_values, DataChartState.init, sampleHistory, sampleState]
  exact ⟨hu, chart_filename_spec 0 DataChartState.init sampleState sampleHistory 1 2 3 4 hu⟩

/-! ## Claim C8 — fail-fast argument validation -/

/-- Claim C8: argument validation is the first step of the driver's trace,
before any fold event; the learning-rate validator succeeds returning its
argument unchanged exactly when the rate lies in (0, 1] and raises
`ValueError` exactly otherwise, and likewise the fold-count and
batch-size validators for their `>= 2` bounds. -/
theorem argument_validation_spec (parts : List (List Nat × List Nat))
    (lr : ℚ) (nf bs : ℤ) :
    (mainTrace parts).head? = some Event.validateArgs
    ∧ (validate_learning_rate lr = Except.ok lr ↔ 0 < lr ∧ lr ≤ 1)
    ∧ (exceptIsOk (validate_learning_rate lr) = true ↔ 0 < lr ∧ lr ≤ 1)
    ∧ (validate_n_folds nf = Except.ok nf ↔ 2 ≤ nf)
    ∧ (exceptIsOk (validate_n_folds nf) = true ↔ 2 ≤ nf)
    ∧ (validate_batch_size bs = Except.ok bs ↔ 2 ≤ bs)
    ∧ (exceptIsOk (validate_batch_size bs) = true ↔ 2 ≤ bs) := by
  refine ⟨rfl, ?_, ?_, ?_, ?_, ?_, ?_⟩ <;>
    · simp only [validate_learning_rate, validate_n_folds, validate_batch_size]
      split_ifs with hcond <;> simp_all [exceptIsOk]

/-! ## Claim C9 — class labels from directory paths -/

/-- Claim C9: when both directory arguments exist, `validate_image_folders`
returns the original path arguments unchanged as the image folders, and as
class labels the final path component of each argument after stripping
leading and trailing path separators. -/
theorem validate_image_folders_spec (isdir : String → Bool) (c1 c2 : String)
    (h1 : isdir c1 = true) (h2 : isdir c2 = true) :
    validate_image_folders isdir c1 c2
      = Except.ok ((c1, c2), (finalPathComponent c1, finalPathComponent c2)) := by
  unfold validate_image_folders
  rw [h1, h2]
  simp [class_label_eq_final]

/-- Witness for the C9 theorem: `data/class_a/` yields the label
`class_a` and the folder arguments are returned unchanged. -/
theorem validate_image_folders_spec_witness :
    (fun _ : String => true) "data/class_a/" = true
    ∧ (fun _ : String => true) "data/class_b" = true
    ∧ validate_image_folders (fun _ : String => true) "data/class_a/" "data/class_b"
        = Except.ok (("data/class_a/", "data/class_b"), ("class_a", "class_b")) := by
  refine ⟨rfl, rfl, ?_⟩
  rw [validate_image_folders_spec (fun _ : String => true) "data/class_a/" "data/class_b"
    rfl rfl]
  rfl

/-! ## Claim C10 — epoch count accepted without a range check -/

/-- Claim C10: `validate_n_epochs` returns every integer argument —
including zero and negative values — unchanged and never raises, while
each of the other numeric hyperparameter validators (image size, learning
rate, fold count, batch size) rejects some value, making the epoch count
the only numeric hyperparameter accepted without a range check. -/
theorem epoch_count_without_range_check :
    (∀ e : ℤ, validate_n_epochs e = Except.ok e)
    ∧ exceptIsOk (validate_image_size 3) = false
    ∧ exceptIsOk (validate_learning_rate 2) = false
    ∧ exceptIsOk (validate_n_folds 1) = false
    ∧ exceptIsOk (validate_batch_size 1) = false := by
  refine ⟨fun e => rfl, ?_, ?_, ?_, ?_⟩ <;>
    norm_num [validate_image_size, validate_learning_rate, validate_n_folds,
      validate_batch_size, exceptIsOk]

end FieldClassification
